import Mathlib

/-!
Verification of the skip-hire booking UI core logic
(`src/app/components/hybrid-skip-panel.tsx`, `src/app/components/tabs.tsx`,
`src/types/index.ts`).

The TypeScript source is shallowly embedded: JS numbers are modelled as `ℚ`
(sizes, which the spec fixes to be positive integers, as `ℕ`), `number | null`
fields as `Option ℚ`, and `Math.round` as `jsRound` (floor of `x + 1/2`,
i.e. round-half-up, which is exactly the JS semantics on the rationals).
JS truthiness tests on `number | null` values (`apiData.transport_cost ? _ : _`)
are modelled by `transportTruthy`: `null` and `0` are falsy, everything else
truthy.  React `useState` pairs are modelled as explicit state records with
pure transition functions.  Lucide icon components are modelled as an
enumeration, since only their identity matters.
-/

attribute [local semireducible] Rat.mul Rat.inv Rat.add Rat.sub Rat.ofScientific

/-- Lucide icon components used by the skip display properties. -/
inductive IconT
  | Home
  | Building
  | Factory
  | TruckIcon
  | Warehouse
deriving DecidableEq, Repr

/-- Mirror of the `UseCase` interface in `src/types/index.ts`. -/
structure UseCase where
  type : String
  percentage : ℕ
deriving DecidableEq, Repr

/-- Mirror of the `SkipApiData` interface in `src/types/index.ts`. -/
structure SkipApiData where
  id : ℤ
  size : ℕ
  hire_period_days : ℕ
  transport_cost : Option ℚ
  per_tonne_cost : Option ℚ
  price_before_vat : ℚ
  vat : ℚ
  postcode : String
  area : String
  forbidden : Bool
  created_at : String
  updated_at : String
  allowed_on_road : Bool
  allows_heavy_waste : Bool
deriving DecidableEq

/-- Mirror of the `Skip` interface in `src/types/index.ts`: the API fields plus
the computed and display properties. -/
structure Skip where
  id : ℤ
  size : ℕ
  hire_period_days : ℕ
  transport_cost : Option ℚ
  per_tonne_cost : Option ℚ
  price_before_vat : ℚ
  vat : ℚ
  postcode : String
  area : String
  forbidden : Bool
  created_at : String
  updated_at : String
  allowed_on_road : Bool
  allows_heavy_waste : Bool
  final_price : ℚ
  price_with_vat : ℚ
  name : String
  scale : ℚ
  popularity : ℚ
  icon : IconT
  gradient : String
  description : String
  capacity : String
  dimensions : String
  weight : String
  deliveryTime : String
  bestFor : List String
  restrictions : List String
  useCases : List UseCase
  badge : Option String
deriving DecidableEq

/-- Result record of `getDisplayProperties`: the shape shared by the five
`sizeConfig` entries and the `defaultConfig` object (the `badge` field is
present only on the size-6 entry, hence optional). -/
structure DisplayProps where
  name : String
  scale : ℚ
  popularity : ℚ
  icon : IconT
  gradient : String
  description : String
  capacity : String
  dimensions : String
  weight : String
  bestFor : List String
  useCases : List UseCase
  badge : Option String
deriving DecidableEq

/-- JS `Math.round`: rounds half-up (toward positive infinity on ties),
which on rationals is the floor of `x + 1/2`.  `Rat.floor` is used so that
the definition evaluates by kernel reduction. -/
def jsRound (q : ℚ) : ℤ := Rat.floor (q + 1 / 2)

/-- JS truthiness of a `number | null` value: `null` and `0` are falsy. -/
def transportTruthy : Option ℚ → Bool
  | none => false
  | some c => c != 0

/-- Entry of `sizeConfig` for key `4` in `getDisplayProperties`. -/
def sizeConfig4 : DisplayProps where
  name := "Compact"
  scale := 12 / 10
  popularity := 15 / 100
  icon := .Home
  gradient := "from-emerald-400 via-green-500 to-teal-600"
  description := "Perfect for small home projects and garden clearances"
  capacity := "30-40 bin bags"
  dimensions := "4ft × 6ft × 3ft"
  weight := "2-3 tonnes"
  bestFor := ["Garden waste", "Small renovations", "Decluttering", "DIY projects"]
  useCases := [⟨"Garden clearance", 85⟩, ⟨"Small renovation", 70⟩, ⟨"Decluttering", 90⟩]
  badge := none

/-- Entry of `sizeConfig` for key `6` in `getDisplayProperties`. -/
def sizeConfig6 : DisplayProps where
  name := "Standard"
  scale := 12 / 10
  popularity := 35 / 100
  icon := .Home
  gradient := "from-blue-400 via-sky-500 to-indigo-600"
  description := "Most popular choice for home renovations"
  capacity := "50-60 bin bags"
  dimensions := "6ft × 8ft × 4ft"
  weight := "3-4 tonnes"
  bestFor := ["Kitchen renovations", "Bathroom refits", "Medium clear-outs", "House moves"]
  useCases := [⟨"Kitchen renovation", 95⟩, ⟨"Bathroom refit", 90⟩, ⟨"House move", 75⟩]
  badge := some "Most Popular"

/-- Entry of `sizeConfig` for key `8` in `getDisplayProperties`. -/
def sizeConfig8 : DisplayProps where
  name := "Large"
  scale := 12 / 10
  popularity := 25 / 100
  icon := .Building
  gradient := "from-rose-400 via-pink-500 to-fuchsia-600"
  description := "Ideal for larger home projects and extensions"
  capacity := "70-80 bin bags"
  dimensions := "8ft × 10ft × 4.5ft"
  weight := "4-5 tonnes"
  bestFor := ["Full room renovations", "Extensions", "Large garden projects", "Commercial fit-outs"]
  useCases := [⟨"Full renovation", 90⟩, ⟨"Extension work", 85⟩, ⟨"Commercial project", 70⟩]
  badge := none

/-- Entry of `sizeConfig` for key `10` in `getDisplayProperties`. -/
def sizeConfig10 : DisplayProps where
  name := "Extra Large"
  scale := 12 / 10
  popularity := 2 / 10
  icon := .Building
  gradient := "from-violet-400 via-purple-500 to-indigo-700"
  description := "Perfect for major home projects and large clearouts"
  capacity := "90-100 bin bags"
  dimensions := "10ft × 12ft × 5ft"
  weight := "5-6 tonnes"
  bestFor := ["Major renovations", "Large extensions", "Commercial projects", "Construction waste"]
  useCases := [⟨"Major renovation", 95⟩, ⟨"Large extension", 85⟩, ⟨"Construction", 80⟩]
  badge := none

/-- Entry of `sizeConfig` for key `12` in `getDisplayProperties`. -/
def sizeConfig12 : DisplayProps where
  name := "Commercial"
  scale := 12 / 10
  popularity := 15 / 100
  icon := .Factory
  gradient := "from-amber-400 via-orange-500 to-red-600"
  description := "Heavy-duty solution for major construction"
  capacity := "110-120 bin bags"
  dimensions := "12ft × 14ft × 5.5ft"
  weight := "6-8 tonnes"
  bestFor := ["Major construction", "Industrial projects", "Large demolitions", "Commercial builds"]
  useCases := [⟨"Construction", 95⟩, ⟨"Demolition", 90⟩, ⟨"Industrial", 80⟩]
  badge := none

/-- The `defaultConfig` object built in `getDisplayProperties` for sizes not
specifically mapped, with every formula transcribed from the source
(`size * 1.2` as `size * 12 / 10`, and so on). -/
def defaultConfig (size : ℕ) : DisplayProps where
  name := toString size ++ " Yard Skip"
  scale := 12 / 10
  popularity := 1 / 10
  icon := if size ≥ 16 then .Factory else if size ≥ 10 then .Building else .Home
  gradient :=
    if size ≥ 40 then "from-slate-600 via-gray-700 to-zinc-800"
    else if size ≥ 20 then "from-red-500 via-red-700 to-red-900"
    else if size ≥ 16 then "from-cyan-400 via-teal-500 to-emerald-600"
    else if size ≥ 14 then "from-indigo-400 via-blue-600 to-blue-900"
    else if size ≥ 12 then "from-yellow-400 via-amber-500 to-orange-600"
    else "from-slate-400 via-gray-500 to-zinc-600"
  description :=
    if size ≥ 20 then "Industrial-grade solution for major projects"
    else if size ≥ 16 then "Large commercial and construction projects"
    else if size ≥ 12 then "Heavy-duty commercial applications"
    else toString size ++ " yard skip for medium to large projects"
  capacity :=
    toString (jsRound ((size : ℚ) * 10)) ++ "-" ++ toString (jsRound ((size : ℚ) * 12))
      ++ " bin bags"
  dimensions :=
    toString (jsRound ((size : ℚ) * 12 / 10)) ++ "ft × "
      ++ toString (jsRound ((size : ℚ) * 15 / 10)) ++ "ft × "
      ++ toString (jsRound ((size : ℚ) * 4 / 10 + 3)) ++ "ft"
  weight :=
    toString (jsRound ((size : ℚ) * 6 / 10)) ++ "-" ++ toString (jsRound ((size : ℚ) * 8 / 10))
      ++ " tonnes"
  bestFor :=
    if size ≥ 20 then
      ["Industrial projects", "Major construction", "Large demolitions", "Commercial builds"]
    else if size ≥ 16 then
      ["Large construction", "Commercial projects", "Major demolitions", "Industrial work"]
    else if size ≥ 12 then
      ["Construction projects", "Commercial renovation", "Large clearouts", "Industrial use"]
    else
      ["Medium construction", "Large renovation", "Commercial projects", "Bulk waste"]
  useCases :=
    [⟨if size ≥ 20 then "Industrial"
      else if size ≥ 16 then "Large construction"
      else if size ≥ 12 then "Construction"
      else "Large project", 90⟩,
     ⟨if size ≥ 20 then "Major construction"
      else if size ≥ 16 then "Commercial"
      else if size ≥ 12 then "Commercial renovation"
      else "Commercial", 80⟩,
     ⟨"Bulk clearance", 70⟩]
  badge := none

/-- Transcription of `getDisplayProperties`: exact-match lookup of `size` in
the `sizeConfig` object (keys 4, 6, 8, 10, 12), falling back to
`defaultConfig` for any other size. -/
def getDisplayProperties (apiData : SkipApiData) : DisplayProps :=
  let size := apiData.size
  if size = 4 then sizeConfig4
  else if size = 6 then sizeConfig6
  else if size = 8 then sizeConfig8
  else if size = 10 then sizeConfig10
  else if size = 12 then sizeConfig12
  else defaultConfig size

/-- Transcription of `transformApiDataToSkip`: pricing math
(`priceWithVat = Math.round(price_before_vat * (1 + vat / 100))`,
`finalPrice = transport_cost ? priceWithVat + transport_cost : priceWithVat`),
restriction derivation, display-property spreading, and the delivery-time
label. -/
def transformApiDataToSkip (apiData : SkipApiData) : Skip :=
  let displayProps := getDisplayProperties apiData
  let priceWithVat : ℚ := (jsRound (apiData.price_before_vat * (1 + apiData.vat / 100)) : ℤ)
  let finalPrice : ℚ :=
    if transportTruthy apiData.transport_cost then
      priceWithVat + apiData.transport_cost.getD 0
    else priceWithVat
  let restrictions : List String :=
    (if !apiData.allowed_on_road then ["Road permit required"] else [])
      ++ (if !apiData.allows_heavy_waste then ["Heavy waste restrictions apply"] else [])
      ++ (if transportTruthy apiData.transport_cost then
            ["Additional transport costs apply"] else [])
  { id := apiData.id
    size := apiData.size
    hire_period_days := apiData.hire_period_days
    transport_cost := apiData.transport_cost
    per_tonne_cost := apiData.per_tonne_cost
    price_before_vat := apiData.price_before_vat
    vat := apiData.vat
    postcode := apiData.postcode
    area := apiData.area
    forbidden := apiData.forbidden
    created_at := apiData.created_at
    updated_at := apiData.updated_at
    allowed_on_road := apiData.allowed_on_road
    allows_heavy_waste := apiData.allows_heavy_waste
    final_price := finalPrice
    price_with_vat := priceWithVat
    name := displayProps.name
    scale := displayProps.scale
    popularity := displayProps.popularity
    icon := displayProps.icon
    gradient := displayProps.gradient
    description := displayProps.description
    capacity := displayProps.capacity
    dimensions := displayProps.dimensions
    weight := displayProps.weight
    deliveryTime := if transportTruthy apiData.transport_cost then "Next day" else "Same day"
    bestFor := displayProps.bestFor
    restrictions := restrictions
    useCases := displayProps.useCases
    badge := displayProps.badge }

/-- Bridge between the executable `jsRound` and the order-theoretic floor. -/
theorem jsRound_eq_floor (q : ℚ) : jsRound q = ⌊q + 1 / 2⌋ := by
  rw [jsRound, Rat.floor_def', ← Rat.floor_def]

/-- The `rawApiData` fixture: the hardcoded sequence of raw rate records. -/
def rawApiData : List SkipApiData :=
  [{ id := 17933, size := 4, hire_period_days := 14, transport_cost := none,
     per_tonne_cost := none, price_before_vat := 278, vat := 20, postcode := "NR32",
     area := "", forbidden := false, created_at := "2025-04-03T13:51:46.897146",
     updated_at := "2025-04-07T13:16:52.813", allowed_on_road := true,
     allows_heavy_waste := true },
   { id := 17934, size := 6, hire_period_days := 14, transport_cost := none,
     per_tonne_cost := none, price_before_vat := 305, vat := 20, postcode := "NR32",
     area := "", forbidden := false, created_at := "2025-04-03T13:51:46.897146",
     updated_at := "2025-04-07T13:16:52.992", allowed_on_road := true,
     allows_heavy_waste := true },
   { id := 17935, size := 8, hire_period_days := 14, transport_cost := none,
     per_tonne_cost := none, price_before_vat := 375, vat := 20, postcode := "NR32",
     area := "", forbidden := false, created_at := "2025-04-03T13:51:46.897146",
     updated_at := "2025-04-07T13:16:53.171", allowed_on_road := true,
     allows_heavy_waste := true },
   { id := 17936, size := 10, hire_period_days := 14, transport_cost := none,
     per_tonne_cost := none, price_before_vat := 400, vat := 20, postcode := "NR32",
     area := "", forbidden := false, created_at := "2025-04-03T13:51:46.897146",
     updated_at := "2025-04-07T13:16:53.339", allowed_on_road := false,
     allows_heavy_waste := false },
   { id := 17937, size := 12, hire_period_days := 14, transport_cost := none,
     per_tonne_cost := none, price_before_vat := 439, vat := 20, postcode := "NR32",
     area := "", forbidden := false, created_at := "2025-04-03T13:51:46.897146",
     updated_at := "2025-04-07T13:16:53.516", allowed_on_road := false,
     allows_heavy_waste := false },
   { id := 17938, size := 14, hire_period_days := 14, transport_cost := none,
     per_tonne_cost := none, price_before_vat := 470, vat := 20, postcode := "NR32",
     area := "", forbidden := false, created_at := "2025-04-03T13:51:46.897146",
     updated_at := "2025-04-07T13:16:53.69", allowed_on_road := false,
     allows_heavy_waste := false },
   { id := 17939, size := 16, hire_period_days := 14, transport_cost := none,
     per_tonne_cost := none, price_before_vat := 496, vat := 20, postcode := "NR32",
     area := "", forbidden := false, created_at := "2025-04-03T13:51:46.897146",
     updated_at := "2025-04-07T13:16:53.876", allowed_on_road := false,
     allows_heavy_waste := false },
   { id := 15124, size := 20, hire_period_days := 14, transport_cost := some 248,
     per_tonne_cost := some 248, price_before_vat := 992, vat := 20, postcode := "NR32",
     area := "", forbidden := false, created_at := "2025-04-03T13:51:40.344435",
     updated_at := "2025-04-07T13:16:52.434", allowed_on_road := false,
     allows_heavy_waste := true },
   { id := 15125, size := 40, hire_period_days := 14, transport_cost := some 248,
     per_tonne_cost := some 248, price_before_vat := 992, vat := 20, postcode := "NR32",
     area := "", forbidden := false, created_at := "2025-04-03T13:51:40.344435",
     updated_at := "2025-04-07T13:16:52.603", allowed_on_road := false,
     allows_heavy_waste := false }]

/-- Comparator of the `skipData` sort: `(a, b) => a.size - b.size` sorts
ascending by size; JS `Array.prototype.sort` is stable, which insertion sort
with the non-strict order realizes. -/
def bySize (a b : Skip) : Prop := a.size ≤ b.size

instance : DecidableRel bySize := fun a b => Nat.decLe a.size b.size

/-- The `skipData` construction applied to an arbitrary raw record list:
filter out forbidden skips, transform, and stably sort ascending by size. -/
def skipDataOf (raw : List SkipApiData) : List Skip :=
  List.insertionSort bySize ((raw.filter (fun skip => !skip.forbidden)).map
    transformApiDataToSkip)

/-- The exported `skipData` catalog built from the fixture. -/
def skipData : List Skip := skipDataOf rawApiData

/-- Loop body of `getMostPopularSkipIndex`: `skipData.forEach` tracking
`mostPopularIndex` and `highestPopularity`, updating on strict improvement
(`skip.popularity > highestPopularity`). -/
def getMostPopularGo : List Skip → ℕ → ℕ → ℚ → ℕ
  | [], _, best, _ => best
  | skip :: rest, idx, best, highest =>
    if highest < skip.popularity then getMostPopularGo rest (idx + 1) idx skip.popularity
    else getMostPopularGo rest (idx + 1) best highest

/-- Transcription of `getMostPopularSkipIndex`, parameterized by the catalog
it scans (the source reads the module-level `skipData`). -/
def getMostPopularSkipIndexOf (catalog : List Skip) : ℕ :=
  getMostPopularGo catalog 0 0 0

/-- The source's `getMostPopularSkipIndex`, reading the fixture catalog. -/
def getMostPopularSkipIndex : ℕ := getMostPopularSkipIndexOf skipData

/-- Transcription of `getSkipIndexBySize`, parameterized by the catalog: a
`findIndex` on size equality (`List.findIdx` returns the length where JS
returns `-1`) with fallback to the most popular index when not found. -/
def getSkipIndexBySizeOf (catalog : List Skip) (size : ℕ) : ℕ :=
  let index := catalog.findIdx (fun skip => skip.size == size)
  if index < catalog.length then index else getMostPopularSkipIndexOf catalog

/-- The source's `getSkipIndexBySize`, reading the fixture catalog. -/
def getSkipIndexBySize (size : ℕ) : ℕ := getSkipIndexBySizeOf skipData size

/-- Lucide icons of the wizard step configurations in `tabs.tsx`. -/
inductive StepIcon
  | MapPin
  | Trash2
  | Package
  | FileCheck
  | Calendar
  | CreditCard
deriving DecidableEq, Repr

/-- One entry of the `steps` configuration array in `tabs.tsx`. -/
structure StepConfig where
  id : ℕ
  title : String
  icon : StepIcon
  component : String
deriving DecidableEq

/-- The `steps` array: the six-step booking flow configuration. -/
def steps : List StepConfig :=
  [{ id := 1, title := "Postcode", icon := .MapPin, component := "PostcodeStep" },
   { id := 2, title := "Waste Type", icon := .Trash2, component := "WasteTypeStep" },
   { id := 3, title := "Select Skip", icon := .Package, component := "SelectSkipStep" },
   { id := 4, title := "Permit Check", icon := .FileCheck, component := "PermitCheckStep" },
   { id := 5, title := "Choose Date", icon := .Calendar, component := "ChooseDateStep" },
   { id := 6, title := "Payment", icon := .CreditCard, component := "PaymentStep" }]

/-- The `MultiStepBuilder` state: the two `useState` hooks `currentStep`
(1-indexed) and `canGoNext`. -/
structure WizardState where
  currentStep : ℕ
  canGoNext : Bool
deriving DecidableEq

/-- The initial wizard state: `useState(1)` and `useState(true)`. -/
def initialWizardState : WizardState := { currentStep := 1, canGoNext := true }

/-- Transcription of `handleNext`: increment the step only while below
`steps.length`. -/
def handleNext (s : WizardState) : WizardState :=
  if s.currentStep < steps.length then { s with currentStep := s.currentStep + 1 } else s

/-- Transcription of `handlePrevious`: decrement the step only while above 1. -/
def handlePrevious (s : WizardState) : WizardState :=
  if 1 < s.currentStep then { s with currentStep := s.currentStep - 1 } else s

/-- States of `MultiStepBuilder` reachable from the initial render by any
sequence of the two navigation callbacks.  No other code writes the state:
`setCanGoNext` is never invoked, so no constructor changes `canGoNext`. -/
inductive ReachableWizard : WizardState → Prop
  | init : ReachableWizard initialWizardState
  | next {s : WizardState} : ReachableWizard s → ReachableWizard (handleNext s)
  | prev {s : WizardState} : ReachableWizard s → ReachableWizard (handlePrevious s)

/-- Mirror of the `Tab` type in `tabs.tsx` (the unused optional `content`
field is omitted). -/
structure Tab where
  title : String
  value : String
deriving DecidableEq

/-- The `Tabs` component state: the two `useState` hooks `tabs` (current
ordering) and `active` (selected tab). -/
structure TabsState where
  tabs : List Tab
  active : Tab
deriving DecidableEq

/-- Transcription of `moveSelectedTabToTop`: copy the canonical `propTabs`
list, splice out the element at `idx`, unshift it to the front, and store the
new ordering and the new head as the active tab.  The previous component
state is ignored entirely; for an out-of-range `idx` (where the JS code would
unshift `undefined`) the state is left unchanged, a case outside every claim,
which only concern in-range indices. -/
def moveSelectedTabToTop (propTabs : List Tab) (idx : ℕ) (s : TabsState) : TabsState :=
  match propTabs[idx]? with
  | some selectedTab =>
    { tabs := selectedTab :: propTabs.eraseIdx idx, active := selectedTab }
  | none => s

example : jsRound ((2786 : ℚ) / 10) = 279 := by decide

example : jsRound ((2785 : ℚ) / 10) = 279 := by decide

example : jsRound ((2784 : ℚ) / 10) = 278 := by decide

example : (transformApiDataToSkip (rawApiData.get ⟨0, by decide⟩)).price_with_vat = 334 := by
  decide

example : skipData.length = 9 := by decide

example : getMostPopularSkipIndex = 1 := by decide

example : getSkipIndexBySize 6 = 1 := by decide

example : getSkipIndexBySize 999 = 1 := by decide


/-! ### Wizard state machine -/

/-- Helper: `handleNext` and `handlePrevious` never change the gate flag. -/
theorem canGoNext_invariant {s : WizardState} (h : ReachableWizard s) :
    s.canGoNext = true := by
  induction h with
  | init => rfl
  | next _ ih =>
    rw [handleNext]
    split <;> simpa using ih
  | prev _ ih =>
    rw [handlePrevious]
    split <;> simpa using ih

/-- Helper: the step counter of every reachable wizard state lies in
`[1, steps.length]`. -/
theorem currentStep_invariant {s : WizardState} (h : ReachableWizard s) :
    1 ≤ s.currentStep ∧ s.currentStep ≤ steps.length := by
  have h6 : steps.length = 6 := rfl
  induction h with
  | init => exact ⟨le_refl 1, by decide⟩
  | next _ ih =>
    rw [handleNext]
    split
    · next hlt => exact ⟨by simp, by simp; omega⟩
    · exact ih
  | prev _ ih =>
    rw [handlePrevious]
    split
    · next hlt => exact ⟨by simp; omega, by simp; omega⟩
    · exact ih

/-- C6: for the 6-step wizard started at step 1, `handleNext` at step 6 is a
no-op, `handlePrevious` at step 1 is a no-op, from step 3 a `handleNext`
followed by a `handlePrevious` restores the state, and every state reachable
by any sequence of the two operations keeps the current step within
`[1, steps.length]` with `steps.length = 6`.  All operations are total
functions, so none can fail at runtime. -/
theorem wizard_boundary_and_invariant :
    steps.length = 6
    ∧ (∀ s : WizardState, s.currentStep = 6 → handleNext s = s)
    ∧ (∀ s : WizardState, s.currentStep = 1 → handlePrevious s = s)
    ∧ (∀ s : WizardState, s.currentStep = 3 → handlePrevious (handleNext s) = s)
    ∧ (∀ s : WizardState, ReachableWizard s →
        1 ≤ s.currentStep ∧ s.currentStep ≤ steps.length) := by
  have h6 : steps.length = 6 := rfl
  refine ⟨by decide, ?_, ?_, ?_, fun s h => currentStep_invariant h⟩
  · intro s h
    rw [handleNext, if_neg (by omega)]
  · intro s h
    rw [handlePrevious, if_neg (by omega)]
  · intro s h
    rw [handleNext, if_pos (by rw [h]; decide)]
    rw [handlePrevious, if_pos (by simp; omega)]
    cases s
    simp

/-- Witness for C6 at concrete states: the boundary no-ops at steps 6 and 1,
the advance-retreat roundtrip at step 3, and the range invariant at the
initial state. -/
theorem wizard_boundary_and_invariant_witness :
    handleNext { currentStep := 6, canGoNext := true } = { currentStep := 6, canGoNext := true }
    ∧ handlePrevious { currentStep := 1, canGoNext := true }
        = { currentStep := 1, canGoNext := true }
    ∧ handlePrevious (handleNext { currentStep := 3, canGoNext := true })
        = { currentStep := 3, canGoNext := true }
    ∧ (1 ≤ initialWizardState.currentStep ∧ initialWizardState.currentStep ≤ steps.length) :=
  ⟨wizard_boundary_and_invariant.2.1 _ rfl,
   wizard_boundary_and_invariant.2.2.1 _ rfl,
   wizard_boundary_and_invariant.2.2.2.1 _ rfl,
   wizard_boundary_and_invariant.2.2.2.2 _ ReachableWizard.init⟩

/-- C10: the gate flag `canGoNext` is initialized to `true` and no operation
ever sets it to `false` (`setCanGoNext` is never called), so in every
reachable wizard state it is `true`, and the forward transition from any step
below `steps.length` always increments the step. -/
theorem gate_always_true :
    initialWizardState.canGoNext = true
    ∧ (∀ s : WizardState, ReachableWizard s → s.canGoNext = true)
    ∧ (∀ s : WizardState, ReachableWizard s → s.currentStep < steps.length →
        (handleNext s).currentStep = s.currentStep + 1) := by
  refine ⟨rfl, fun s h => canGoNext_invariant h, fun s _ hlt => ?_⟩
  rw [handleNext, if_pos hlt]

/-- Witness for C10 at the initial state: the gate is `true` and advancing
from step 1 reaches step 2. -/
theorem gate_always_true_witness :
    initialWizardState.canGoNext = true
    ∧ (handleNext initialWizardState).currentStep = initialWizardState.currentStep + 1 :=
  ⟨gate_always_true.2.1 initialWizardState ReachableWizard.init,
   gate_always_true.2.2 initialWizardState ReachableWizard.init (by decide)⟩

/-! ### Skip-tab reordering -/

/-- C7: selecting the skip tab at an in-range position `idx` rebuilds the
ordering from the canonical `propTabs` list — the selected element moved to
the front of the canonical list — and marks it active; since the previous
component state is never consulted, selecting tab B and then tab A gives
exactly the state of selecting tab A alone. -/
theorem tab_reorder_canonical (propTabs : List Tab) (idx : ℕ) (h : idx < propTabs.length)
    (s : TabsState) :
    (moveSelectedTabToTop propTabs idx s).tabs
        = propTabs.get ⟨idx, h⟩ :: (propTabs.take idx ++ propTabs.drop (idx + 1))
    ∧ (moveSelectedTabToTop propTabs idx s).active = propTabs.get ⟨idx, h⟩
    ∧ ∀ (idxB : ℕ) (sB : TabsState),
        moveSelectedTabToTop propTabs idx (moveSelectedTabToTop propTabs idxB sB)
          = moveSelectedTabToTop propTabs idx s := by
  have hsome : propTabs[idx]? = some (propTabs.get ⟨idx, h⟩) := by
    rw [List.getElem?_eq_getElem h]
    rfl
  refine ⟨?_, ?_, ?_⟩
  · rw [moveSelectedTabToTop, hsome, List.eraseIdx_eq_take_drop_succ]
  · rw [moveSelectedTabToTop, hsome]
  · intro idxB sB
    conv_lhs => rw [moveSelectedTabToTop, hsome]
    conv_rhs => rw [moveSelectedTabToTop, hsome]

/-- Witness for C7 on a concrete two-tab list: selecting index 1 moves the
second tab to the front from any previous state, including a state reached by
first selecting index 0. -/
theorem tab_reorder_canonical_witness :
    (moveSelectedTabToTop [⟨"Compact", "17933"⟩, ⟨"Standard", "17934"⟩] 1
        { tabs := [⟨"Compact", "17933"⟩, ⟨"Standard", "17934"⟩],
          active := ⟨"Compact", "17933"⟩ }).tabs
      = [⟨"Standard", "17934"⟩, ⟨"Compact", "17933"⟩]
    ∧ (moveSelectedTabToTop [⟨"Compact", "17933"⟩, ⟨"Standard", "17934"⟩] 1
        { tabs := [⟨"Compact", "17933"⟩, ⟨"Standard", "17934"⟩],
          active := ⟨"Compact", "17933"⟩ }).active = ⟨"Standard", "17934"⟩
    ∧ moveSelectedTabToTop [⟨"Compact", "17933"⟩, ⟨"Standard", "17934"⟩] 1
        (moveSelectedTabToTop [⟨"Compact", "17933"⟩, ⟨"Standard", "17934"⟩] 0
          { tabs := [⟨"Compact", "17933"⟩, ⟨"Standard", "17934"⟩],
            active := ⟨"Compact", "17933"⟩ })
      = moveSelectedTabToTop [⟨"Compact", "17933"⟩, ⟨"Standard", "17934"⟩] 1
          { tabs := [⟨"Compact", "17933"⟩, ⟨"Standard", "17934"⟩],
            active := ⟨"Compact", "17933"⟩ } :=
  ⟨(tab_reorder_canonical _ 1 (by decide) _).1,
   (tab_reorder_canonical _ 1 (by decide) _).2.1,
   (tab_reorder_canonical _ 1 (by decide) _).2.2 0 _⟩

/-! ### Pricing and restriction derivation -/

/-- Helper: unfolding of the tax computation in `transformApiDataToSkip`. -/
theorem transform_price_with_vat (a : SkipApiData) :
    (transformApiDataToSkip a).price_with_vat
      = ((jsRound (a.price_before_vat * (1 + a.vat / 100)) : ℤ) : ℚ) := rfl

/-- Helper: unfolding of the final-price computation in
`transformApiDataToSkip`. -/
theorem transform_final_price (a : SkipApiData) :
    (transformApiDataToSkip a).final_price
      = if transportTruthy a.transport_cost then
          (transformApiDataToSkip a).price_with_vat + a.transport_cost.getD 0
        else (transformApiDataToSkip a).price_with_vat := rfl

/-- Helper: unfolding of the restriction derivation in
`transformApiDataToSkip`. -/
theorem transform_restrictions (a : SkipApiData) :
    (transformApiDataToSkip a).restrictions
      = (if !a.allowed_on_road then ["Road permit required"] else [])
        ++ (if !a.allows_heavy_waste then ["Heavy waste restrictions apply"] else [])
        ++ (if transportTruthy a.transport_cost then
              ["Additional transport costs apply"] else []) := rfl

/-- C1: for every raw rate record, `priceWithTax` is the round-half-up of
`price_before_vat * (1 + vat / 100)`, and `finalPrice` adds the raw,
unrounded transport cost exactly when it is non-null (a JS-truthiness test,
but adding a zero transport cost is the identity, so the non-null phrasing
holds); on the fixture record with price 278, VAT 20 and no transport cost
the results are 334 and 334, and on the record with price 992, VAT 20 and
transport cost 248 they are 1190 and 1438. -/
theorem pricing_decoration :
    (∀ a : SkipApiData,
      (transformApiDataToSkip a).price_with_vat
          = ((⌊a.price_before_vat * (1 + a.vat / 100) + 1 / 2⌋ : ℤ) : ℚ)
      ∧ (a.transport_cost = none →
          (transformApiDataToSkip a).final_price = (transformApiDataToSkip a).price_with_vat)
      ∧ (∀ c : ℚ, a.transport_cost = some c →
          (transformApiDataToSkip a).final_price
            = (transformApiDataToSkip a).price_with_vat + c))
    ∧ (transformApiDataToSkip (rawApiData.get ⟨0, by decide⟩)).price_with_vat = 334
    ∧ (transformApiDataToSkip (rawApiData.get ⟨0, by decide⟩)).final_price = 334
    ∧ (transformApiDataToSkip (rawApiData.get ⟨7, by decide⟩)).price_with_vat = 1190
    ∧ (transformApiDataToSkip (rawApiData.get ⟨7, by decide⟩)).final_price = 1438 := by
  refine ⟨?_, by decide, by decide, by decide, by decide⟩
  intro a
  refine ⟨by rw [transform_price_with_vat, jsRound_eq_floor], ?_, ?_⟩
  · intro h
    rw [transform_final_price, h]
    simp [transportTruthy]
  · intro c hc
    rw [transform_final_price, hc]
    by_cases h0 : c = 0
    · subst h0
      simp [transportTruthy]
    · simp [transportTruthy, h0]

/-- Witness for C1 at the fixture record with transport cost 248: the final
price is the taxed price plus 248. -/
theorem pricing_decoration_witness :
    (transformApiDataToSkip (rawApiData.get ⟨7, by decide⟩)).final_price
      = (transformApiDataToSkip (rawApiData.get ⟨7, by decide⟩)).price_with_vat + 248 :=
  (pricing_decoration.1 _).2.2 248 rfl

/-- A raw record whose transport cost is present but zero: JS treats `0` as
falsy, so the decoration takes the no-transport branch. -/
def zeroTransportRecord : SkipApiData :=
  { id := 1, size := 4, hire_period_days := 14, transport_cost := some 0,
    per_tonne_cost := none, price_before_vat := 100, vat := 20, postcode := "NR32",
    area := "", forbidden := false, created_at := "", updated_at := "",
    allowed_on_road := true, allows_heavy_waste := true }

/-- Counterexample to C2 as stated: on a record with a present-but-zero
transport cost the final price equals the taxed price even though the
transport cost is not absent, refuting the claimed equivalence. -/
theorem price_invariant_counterexample :
    ¬ ((transformApiDataToSkip zeroTransportRecord).final_price
          = (transformApiDataToSkip zeroTransportRecord).price_with_vat
        ↔ zeroTransportRecord.transport_cost = none) := by decide

/-- C2 (amended): for every raw record with non-negative price, VAT and
transport cost, `finalPrice >= priceWithTax >= 0`, and `finalPrice`
equals `priceWithTax` exactly when the transport cost is absent or zero
(the original claim said absent only). -/
theorem price_invariant_amended (a : SkipApiData)
    (hp : 0 ≤ a.price_before_vat) (hv : 0 ≤ a.vat)
    (ht : ∀ c : ℚ, a.transport_cost = some c → 0 ≤ c) :
    0 ≤ (transformApiDataToSkip a).price_with_vat
    ∧ (transformApiDataToSkip a).price_with_vat ≤ (transformApiDataToSkip a).final_price
    ∧ ((transformApiDataToSkip a).final_price = (transformApiDataToSkip a).price_with_vat
        ↔ (a.transport_cost = none ∨ a.transport_cost = some 0)) := by
  have h1 : (0 : ℚ) ≤ 1 + a.vat / 100 := by
    have := div_nonneg hv (by norm_num : (0 : ℚ) ≤ 100)
    linarith
  have hx : (0 : ℚ) ≤ a.price_before_vat * (1 + a.vat / 100) := mul_nonneg hp h1
  refine ⟨?_, ?_, ?_⟩
  · rw [transform_price_with_vat, jsRound_eq_floor]
    have : (0 : ℤ) ≤ ⌊a.price_before_vat * (1 + a.vat / 100) + 1 / 2⌋ :=
      Int.le_floor.mpr (by push_cast; linarith)
    exact_mod_cast this
  · rw [transform_final_price]
    cases htc : a.transport_cost with
    | none => simp [transportTruthy]
    | some c =>
      by_cases h0 : c = 0
      · subst h0
        simp [transportTruthy]
      · have hc := ht c htc
        simp only [transportTruthy, bne_iff_ne, ne_eq, h0, not_false_iff, if_true,
          Option.getD_some]
        linarith
  · rw [transform_final_price]
    cases htc : a.transport_cost with
    | none => simp [transportTruthy]
    | some c =>
      by_cases h0 : c = 0
      · subst h0
        simp [transportTruthy]
      · simp only [transportTruthy, bne_iff_ne, ne_eq, h0, not_false_iff, if_true,
          Option.getD_some, Option.some.injEq]
        constructor
        · intro hEq
          exact absurd (by linarith) h0
        · rintro (h | h) <;> simp_all

/-- Witness for C2 (amended) at the fixture record with price 278, VAT 20 and
no transport cost. -/
theorem price_invariant_amended_witness :
    0 ≤ (transformApiDataToSkip (rawApiData.get ⟨0, by decide⟩)).price_with_vat
    ∧ (transformApiDataToSkip (rawApiData.get ⟨0, by decide⟩)).price_with_vat
        ≤ (transformApiDataToSkip (rawApiData.get ⟨0, by decide⟩)).final_price
    ∧ ((transformApiDataToSkip (rawApiData.get ⟨0, by decide⟩)).final_price
          = (transformApiDataToSkip (rawApiData.get ⟨0, by decide⟩)).price_with_vat
        ↔ ((rawApiData.get ⟨0, by decide⟩).transport_cost = none
            ∨ (rawApiData.get ⟨0, by decide⟩).transport_cost = some 0)) :=
  price_invariant_amended (rawApiData.get ⟨0, by decide⟩) (by decide) (by decide)
    (fun _ hc => Option.noConfusion hc)

/-- Helper for C8: the restriction list as a function of the three source
fields, with the transport condition spelled out as present-and-nonzero. -/
theorem restrictions_eq_formula (a : SkipApiData) :
    (transformApiDataToSkip a).restrictions
      = (if a.allowed_on_road = false then ["Road permit required"] else [])
        ++ (if a.allows_heavy_waste = false then ["Heavy waste restrictions apply"] else [])
        ++ (if a.transport_cost ≠ none ∧ a.transport_cost ≠ some 0 then
              ["Additional transport costs apply"] else []) := by
  rw [transform_restrictions]
  have hroad : (if !a.allowed_on_road then ["Road permit required"] else [])
      = (if a.allowed_on_road = false then ["Road permit required"] else []) := by
    cases a.allowed_on_road <;> simp
  have hheavy : (if !a.allows_heavy_waste then ["Heavy waste restrictions apply"] else [])
      = (if a.allows_heavy_waste = false then ["Heavy waste restrictions apply"] else []) := by
    cases a.allows_heavy_waste <;> simp
  have htrans : (if transportTruthy a.transport_cost then
        ["Additional transport costs apply"] else [])
      = (if a.transport_cost ≠ none ∧ a.transport_cost ≠ some 0 then
          ["Additional transport costs apply"] else []) := by
    cases htc : a.transport_cost with
    | none => simp [transportTruthy]
    | some c =>
      by_cases h0 : c = 0
      · subst h0
        simp [transportTruthy]
      · simp [transportTruthy, h0]
  rw [hroad, hheavy, htrans]

/-- Counterexample to C8 as stated: on a record with a present-but-zero
transport cost no transport-cost restriction is appended, although the claim
says every present (non-null) transport cost appends one (the two permission
conditions hold on this record, so its restriction list is empty). -/
theorem restrictions_counterexample :
    zeroTransportRecord.transport_cost ≠ none
    ∧ (transformApiDataToSkip zeroTransportRecord).restrictions = [] := by decide

/-- C8 (amended): the restriction list is built by the three conditions in
fixed order — road placement disallowed, heavy waste disallowed, transport
cost present *and nonzero* (the original claim said merely present) — and is
fully determined by those three source fields. -/
theorem restrictions_decoration (a : SkipApiData) :
    ((transformApiDataToSkip a).restrictions
        = (if a.allowed_on_road = false then ["Road permit required"] else [])
          ++ (if a.allows_heavy_waste = false then ["Heavy waste restrictions apply"] else [])
          ++ (if a.transport_cost ≠ none ∧ a.transport_cost ≠ some 0 then
                ["Additional transport costs apply"] else []))
    ∧ (∀ b : SkipApiData, a.allowed_on_road = b.allowed_on_road →
        a.allows_heavy_waste = b.allows_heavy_waste →
        a.transport_cost = b.transport_cost →
        (transformApiDataToSkip a).restrictions = (transformApiDataToSkip b).restrictions) := by
  refine ⟨restrictions_eq_formula a, fun b h1 h2 h3 => ?_⟩
  rw [restrictions_eq_formula a, restrictions_eq_formula b, h1, h2, h3]

/-- Witness for C8 (amended) at two fixture records (sizes 10 and 12) that
agree on the three source fields: their restriction lists coincide. -/
theorem restrictions_decoration_witness :
    (transformApiDataToSkip (rawApiData.get ⟨3, by decide⟩)).restrictions
      = (transformApiDataToSkip (rawApiData.get ⟨4, by decide⟩)).restrictions :=
  (restrictions_decoration (rawApiData.get ⟨3, by decide⟩)).2
    (rawApiData.get ⟨4, by decide⟩) rfl rfl rfl

/-! ### Catalog query helpers -/

/-- Helper: the `popularity` of a decorated record comes from
`getDisplayProperties`. -/
theorem transform_popularity (a : SkipApiData) :
    (transformApiDataToSkip a).popularity = (getDisplayProperties a).popularity := rfl

/-- Helper: invariant of the `forEach` loop of `getMostPopularSkipIndex`.
Either no element of the remaining list beats the running maximum and the
loop returns the carried best index, or the loop returns the offset position
of the first element that beats the running maximum and is a maximum of the
remaining list, strictly above every element before it. -/
theorem getMostPopularGo_spec (l : List Skip) : ∀ (idx best : ℕ) (hi : ℚ),
    (getMostPopularGo l idx best hi = best
      ∧ ∀ j (hj : j < l.length), l[j].popularity ≤ hi)
    ∨ (∃ j, ∃ hj : j < l.length,
        getMostPopularGo l idx best hi = idx + j
        ∧ hi < l[j].popularity
        ∧ (∀ k (hk : k < l.length), l[k].popularity ≤ l[j].popularity)
        ∧ (∀ k (hk : k < l.length), k < j → l[k].popularity < l[j].popularity)) := by
  induction l with
  | nil =>
    intro idx best hi
    left
    exact ⟨rfl, fun j hj => absurd hj (Nat.not_lt_zero j)⟩
  | cons s rest ih =>
    intro idx best hi
    simp only [getMostPopularGo]
    by_cases hcase : hi < s.popularity
    · rw [if_pos hcase]
      rcases ih (idx + 1) idx s.popularity with ⟨heq, hall⟩ | ⟨j, hj, heq, hlt, hmax, hstrict⟩
      · right
        refine ⟨0, by simp, by rw [heq]; omega, by simpa using hcase, ?_, ?_⟩
        · intro k hk
          cases k with
          | zero => simp
          | succ k =>
            have hk0 : k < rest.length := by simpa using hk
            simpa using hall k hk0
        · intro k hk hk0
          omega
      · right
        have hj1 : j + 1 < (s :: rest).length := by simpa using Nat.succ_lt_succ hj
        refine ⟨j + 1, hj1, by rw [heq]; omega, ?_, ?_, ?_⟩
        · simpa using lt_trans hcase hlt
        · intro k hk
          cases k with
          | zero => simpa using le_of_lt hlt
          | succ k =>
            have hk0 : k < rest.length := by simpa using hk
            simpa using hmax k hk0
        · intro k hk hkj
          cases k with
          | zero => simpa using hlt
          | succ k =>
            have hk0 : k < rest.length := by simpa using hk
            simpa using hstrict k hk0 (by omega)
    · rw [if_neg hcase]
      have hs : s.popularity ≤ hi := le_of_not_lt hcase
      rcases ih (idx + 1) best hi with ⟨heq, hall⟩ | ⟨j, hj, heq, hlt, hmax, hstrict⟩
      · left
        refine ⟨heq, ?_⟩
        intro j hj
        cases j with
        | zero => simpa using hs
        | succ j =>
          have hj0 : j < rest.length := by simpa using hj
          simpa using hall j hj0
      · right
        have hj1 : j + 1 < (s :: rest).length := by simpa using Nat.succ_lt_succ hj
        refine ⟨j + 1, hj1, by rw [heq]; omega, ?_, ?_, ?_⟩
        · simpa using hlt
        · intro k hk
          cases k with
          | zero => simpa using le_trans hs (le_of_lt hlt)
          | succ k =>
            have hk0 : k < rest.length := by simpa using hk
            simpa using hmax k hk0
        · intro k hk hkj
          cases k with
          | zero => simpa using lt_of_le_of_lt hs hlt
          | succ k =>
            have hk0 : k < rest.length := by simpa using hk
            simpa using hstrict k hk0 (by omega)

/-- C4: on any nonempty catalog of entries with non-negative popularity
scores — every decorated record has positive popularity, so program catalogs
qualify — `getMostPopularSkipIndex` returns the first occurrence of the
maximum popularity: every entry is at most as popular, and every earlier
entry is strictly less popular, so an equal later score never replaces it.
On a catalog with popularity sequence `[0.15, 0.35, 0.25]` (the first three
fixture records) it returns 1, and on a single-entry catalog it returns 0. -/
theorem most_popular_first_max :
    (∀ catalog : List Skip, (∀ e ∈ catalog, 0 ≤ e.popularity) → catalog ≠ [] →
      ∃ h : getMostPopularSkipIndexOf catalog < catalog.length,
        (∀ j (hj : j < catalog.length),
          catalog[j].popularity ≤ catalog[getMostPopularSkipIndexOf catalog].popularity)
        ∧ (∀ j (hj : j < catalog.length), j < getMostPopularSkipIndexOf catalog →
            catalog[j].popularity < catalog[getMostPopularSkipIndexOf catalog].popularity))
    ∧ (∀ a : SkipApiData, 0 < (transformApiDataToSkip a).popularity)
    ∧ (skipDataOf (rawApiData.take 3)).map Skip.popularity = [15 / 100, 35 / 100, 25 / 100]
    ∧ getMostPopularSkipIndexOf (skipDataOf (rawApiData.take 3)) = 1
    ∧ (∀ s : Skip, getMostPopularSkipIndexOf [s] = 0) := by
  refine ⟨?_, ?_, by decide, by decide, ?_⟩
  · intro catalog hpos hne
    rcases getMostPopularGo_spec catalog 0 0 0 with ⟨heq, hall⟩ | ⟨j, hj, heq, _, hmax, hstrict⟩
    · have hres : getMostPopularSkipIndexOf catalog = 0 := heq
      have hlen : 0 < catalog.length := List.length_pos.mpr hne
      rw [hres]
      refine ⟨hlen, ?_, ?_⟩
      · intro k hk
        exact le_trans (hall k hk) (hpos _ (catalog.getElem_mem hlen))
      · intro k hk hk0
        omega
    · have hres : getMostPopularSkipIndexOf catalog = j := by
        rw [getMostPopularSkipIndexOf, heq]
        omega
      rw [hres]
      exact ⟨hj, hmax, hstrict⟩
  · intro a
    rw [transform_popularity]
    rw [getDisplayProperties]
    split
    · decide
    · split
      · decide
      · split
        · decide
        · split
          · decide
          · split
            · decide
            · show (0 : ℚ) < 1 / 10
              decide
  · intro s
    simp only [getMostPopularSkipIndexOf, getMostPopularGo]
    split <;> rfl

/-- Witness for C4 on the fixture catalog: its popularities are non-negative
and it is nonempty, so the returned index is the first maximum. -/
theorem most_popular_first_max_witness :
    ∃ h : getMostPopularSkipIndexOf skipData < skipData.length,
      (∀ j (hj : j < skipData.length),
        skipData[j].popularity ≤ skipData[getMostPopularSkipIndexOf skipData].popularity)
      ∧ (∀ j (hj : j < skipData.length), j < getMostPopularSkipIndexOf skipData →
          skipData[j].popularity < skipData[getMostPopularSkipIndexOf skipData].popularity) :=
  most_popular_first_max.1 skipData (by decide) (by decide)

/-- C5: `getSkipIndexBySize` returns the index of the first entry whose size
equals the argument, and when no entry matches it returns the most popular
index instead of signalling not-found.  On the fixture catalog, size 6 is
found at index 1 (the entry there has size 6), and size 999 falls back to
`getMostPopularSkipIndex`. -/
theorem index_by_size_with_fallback :
    (∀ (catalog : List Skip) (s : ℕ),
      ((∃ e ∈ catalog, e.size = s) →
        ∃ h : getSkipIndexBySizeOf catalog s < catalog.length,
          catalog[getSkipIndexBySizeOf catalog s].size = s
          ∧ ∀ j (hj : j < catalog.length), j < getSkipIndexBySizeOf catalog s →
              catalog[j].size ≠ s)
      ∧ ((∀ e ∈ catalog, e.size ≠ s) →
          getSkipIndexBySizeOf catalog s = getMostPopularSkipIndexOf catalog))
    ∧ getSkipIndexBySize 6 = 1
    ∧ (skipData.get ⟨1, by decide⟩).size = 6
    ∧ getSkipIndexBySize 999 = getMostPopularSkipIndex := by
  refine ⟨?_, by decide, by decide, by decide⟩
  intro catalog s
  constructor
  · intro hex
    have hex' : ∃ e ∈ catalog, (fun skip => skip.size == s) e := by
      rcases hex with ⟨e, he, hes⟩
      exact ⟨e, he, by simpa using hes⟩
    have hlt : catalog.findIdx (fun skip => skip.size == s) < catalog.length :=
      List.findIdx_lt_length_of_exists hex'
    have hres : getSkipIndexBySizeOf catalog s
        = catalog.findIdx (fun skip => skip.size == s) := by
      rw [getSkipIndexBySizeOf, if_pos hlt]
    rw [hres]
    refine ⟨hlt, ?_, ?_⟩
    · simpa using List.findIdx_of_getElem?_eq_some (List.getElem?_eq_getElem hlt)
    · intro j hj hjlt
      have := List.not_of_lt_findIdx hjlt
      simpa using this
  · intro hnone
    have hall : ∀ e ∈ catalog, (fun skip => skip.size == s) e = false := by
      intro e he
      simpa using hnone e he
    have hlen : catalog.findIdx (fun skip => skip.size == s) = catalog.length :=
      List.findIdx_eq_length_of_false hall
    rw [getSkipIndexBySizeOf, hlen, if_neg (lt_irrefl catalog.length)]

/-- Witness for C5 on the fixture catalog: size 6 is present, so the lookup
lands on an entry of size 6 with no earlier match. -/
theorem index_by_size_with_fallback_witness :
    ∃ h : getSkipIndexBySizeOf skipData 6 < skipData.length,
      skipData[getSkipIndexBySizeOf skipData 6].size = 6
      ∧ ∀ j (hj : j < skipData.length), j < getSkipIndexBySizeOf skipData 6 →
          skipData[j].size ≠ 6 :=
  ((index_by_size_with_fallback.1 skipData 6).1 (by decide))

/-! ### Catalog construction: filtering, sorting, stability -/

instance : IsTotal Skip bySize := ⟨fun a b => Nat.le_total a.size b.size⟩

instance : IsTrans Skip bySize := ⟨fun _ _ _ => Nat.le_trans⟩

/-- Helper: decoration preserves the exclusion flag. -/
theorem transform_forbidden (a : SkipApiData) :
    (transformApiDataToSkip a).forbidden = a.forbidden := rfl

/-- Helper: inserting an element into a list keeps the sublist of entries of
any fixed size in place — the element lands in front of the equal-size block
because `orderedInsert` passes only strictly smaller sizes. -/
theorem filter_orderedInsert (k : ℕ) (a : Skip) (m : List Skip) :
    (List.orderedInsert bySize a m).filter (fun e => e.size == k)
      = if a.size = k then a :: m.filter (fun e => e.size == k)
        else m.filter (fun e => e.size == k) := by
  induction m with
  | nil =>
    by_cases h : a.size = k <;> simp [List.orderedInsert, h]
  | cons b t ih =>
    rw [List.orderedInsert]
    by_cases hab : bySize a b
    · rw [if_pos hab]
      by_cases h : a.size = k <;> simp [List.filter_cons, h]
    · rw [if_neg hab]
      have hba : b.size < a.size := Nat.lt_of_not_le hab
      by_cases h : a.size = k
      · have hbk : ¬ b.size = k := by omega
        simp [List.filter_cons, hbk, ih, h]
      · simp [List.filter_cons, ih, h]

/-- Helper: stability of the catalog sort, stated as filter-commutation —
for every size value, the sorted catalog lists the entries of that size in
their original relative order. -/
theorem filter_insertionSort_bySize (k : ℕ) (l : List Skip) :
    (List.insertionSort bySize l).filter (fun e => e.size == k)
      = l.filter (fun e => e.size == k) := by
  induction l with
  | nil => rfl
  | cons a t ih =>
    rw [List.insertionSort, filter_orderedInsert]
    by_cases h : a.size = k <;> simp [List.filter_cons, h, ih]

/-- C3: for every input sequence of raw records, the built catalog contains
no excluded (forbidden) record, is a permutation of the decorations of the
non-excluded records, is sorted so that adjacent entries have non-decreasing
sizes, and the sort is stable: for every size value, filtering the catalog to
that size yields the same sequence as filtering the decorated input, i.e.
ties keep their original relative order.  The exported `skipData` is this
construction applied to the fixture. -/
theorem catalog_filtered_sorted_stable (raw : List SkipApiData) :
    (∀ e ∈ skipDataOf raw, e.forbidden = false)
    ∧ (skipDataOf raw).Perm
        ((raw.filter (fun r => !r.forbidden)).map transformApiDataToSkip)
    ∧ (skipDataOf raw).Chain' (fun a b => a.size ≤ b.size)
    ∧ (∀ k : ℕ, (skipDataOf raw).filter (fun e => e.size == k)
        = ((raw.filter (fun r => !r.forbidden)).map transformApiDataToSkip).filter
            (fun e => e.size == k))
    ∧ skipData = skipDataOf rawApiData := by
  refine ⟨?_, List.perm_insertionSort bySize _, ?_, fun k => filter_insertionSort_bySize k _,
    rfl⟩
  · intro e he
    rw [skipDataOf] at he
    have he2 : e ∈ (raw.filter (fun r => !r.forbidden)).map transformApiDataToSkip :=
      (List.mem_insertionSort bySize).mp he
    rcases List.mem_map.mp he2 with ⟨rrec, hr, rfl⟩
    have hmem := List.mem_filter.mp hr
    rw [transform_forbidden]
    simpa using hmem.2
  · have hs : List.Sorted bySize (skipDataOf raw) := List.sorted_insertionSort bySize _
    exact List.Pairwise.chain' hs

/-- Witness for C3 on the fixture: the first catalog entry is not
forbidden. -/
theorem catalog_filtered_sorted_stable_witness :
    (skipData.get ⟨0, by decide⟩).forbidden = false :=
  (catalog_filtered_sorted_stable rawApiData).1 _
    (List.get_mem skipData 0 (by decide))

/-! ### Default display metadata for untabulated sizes -/

/-- The size banding stated by the spec for the default-metadata path
(thresholds 40, 20, 16, 14, 12, else), as a band index.  This follows the
spec's words, to be compared with the thresholds the source actually uses. -/
def specSizeBand (size : ℕ) : ℕ :=
  if size ≥ 40 then 0
  else if size ≥ 20 then 1
  else if size ≥ 16 then 2
  else if size ≥ 14 then 3
  else if size ≥ 12 then 4
  else 5

/-- A minimal raw record of a given size, used to probe the size-keyed
metadata synthesis (which reads only the size). -/
def sampleRecordOfSize (n : ℕ) : SkipApiData :=
  { id := 0, size := n, hire_period_days := 14, transport_cost := none,
    per_tonne_cost := none, price_before_vat := 100, vat := 20, postcode := "NR32",
    area := "", forbidden := false, created_at := "", updated_at := "",
    allowed_on_road := true, allows_heavy_waste := true }

/-- Counterexample to C9 as stated: sizes 9 and 11 lie in the same band of
the claimed thresholds (both below 12, and neither is in the lookup table),
yet the synthesized icons differ, because the source selects the icon with
the thresholds 16 and 10 — threshold 10 is not among the claimed bands. -/
theorem default_metadata_counterexample :
    specSizeBand 9 = specSizeBand 11
    ∧ (getDisplayProperties (sampleRecordOfSize 9)).icon
        ≠ (getDisplayProperties (sampleRecordOfSize 11)).icon := by decide

/-- Helper: rounding `s * m / 10` half-up equals the integer `(m*s + 5)/10`. -/
theorem jsRound_mul_div_ten (s m : ℕ) :
    jsRound ((s : ℚ) * m / 10) = ((m : ℤ) * s + 5) / 10 := by
  rw [jsRound_eq_floor]
  have h : (s : ℚ) * m / 10 + 1 / 2 = (((m : ℤ) * s + 5 : ℤ) : ℚ) / ((10 : ℕ) : ℚ) := by
    push_cast
    ring
  rw [h, Rat.floor_intCast_div_natCast]
  norm_num

/-- Helper: rounding an exact integer product is the identity. -/
theorem jsRound_mul_exact (s m : ℕ) : jsRound ((s : ℚ) * m) = (m : ℤ) * s := by
  rw [jsRound_eq_floor]
  have h : (s : ℚ) * m + 1 / 2 = (((m : ℤ) * s : ℤ) : ℚ) + 1 / 2 := by push_cast; ring
  have h2 : ⌊(1 / 2 : ℚ)⌋ = 0 := by
    rw [Int.floor_eq_zero_iff, Set.mem_Ico]
    norm_num
  rw [h, Int.floor_int_add, h2, add_zero]

/-- Helper: the bin-bag lower bound, `round(size * 10)`, is exact. -/
theorem jsRound_bags_lo (s : ℕ) : jsRound ((s : ℚ) * 10) = 10 * (s : ℤ) := by
  have h : (s : ℚ) * 10 = (s : ℚ) * ((10 : ℕ) : ℚ) := by norm_num
  rw [h, jsRound_mul_exact]
  norm_num

/-- Helper: the bin-bag upper bound, `round(size * 12)`, is exact. -/
theorem jsRound_bags_hi (s : ℕ) : jsRound ((s : ℚ) * 12) = 12 * (s : ℤ) := by
  have h : (s : ℚ) * 12 = (s : ℚ) * ((12 : ℕ) : ℚ) := by norm_num
  rw [h, jsRound_mul_exact]
  norm_num

/-- Helper: the first dimension, `round(size * 1.2)`. -/
theorem jsRound_dim_len (s : ℕ) : jsRound ((s : ℚ) * 12 / 10) = (12 * (s : ℤ) + 5) / 10 := by
  have h : (s : ℚ) * 12 / 10 = (s : ℚ) * ((12 : ℕ) : ℚ) / 10 := by norm_num
  rw [h, jsRound_mul_div_ten]
  norm_num

/-- Helper: the second dimension, `round(size * 1.5)`. -/
theorem jsRound_dim_wid (s : ℕ) : jsRound ((s : ℚ) * 15 / 10) = (15 * (s : ℤ) + 5) / 10 := by
  have h : (s : ℚ) * 15 / 10 = (s : ℚ) * ((15 : ℕ) : ℚ) / 10 := by norm_num
  rw [h, jsRound_mul_div_ten]
  norm_num

/-- Helper: the weight lower bound, `round(size * 0.6)`. -/
theorem jsRound_weight_lo (s : ℕ) : jsRound ((s : ℚ) * 6 / 10) = (6 * (s : ℤ) + 5) / 10 := by
  have h : (s : ℚ) * 6 / 10 = (s : ℚ) * ((6 : ℕ) : ℚ) / 10 := by norm_num
  rw [h, jsRound_mul_div_ten]
  norm_num

/-- Helper: the weight upper bound, `round(size * 0.8)`. -/
theorem jsRound_weight_hi (s : ℕ) : jsRound ((s : ℚ) * 8 / 10) = (8 * (s : ℤ) + 5) / 10 := by
  have h : (s : ℚ) * 8 / 10 = (s : ℚ) * ((8 : ℕ) : ℚ) / 10 := by norm_num
  rw [h, jsRound_mul_div_ten]
  norm_num

/-- Helper: the third dimension, `round(size * 0.4 + 3)`. -/
theorem jsRound_dim_height (s : ℕ) :
    jsRound ((s : ℚ) * 4 / 10 + 3) = (4 * (s : ℤ) + 35) / 10 := by
  rw [jsRound_eq_floor]
  have h : (s : ℚ) * 4 / 10 + 3 + 1 / 2 = ((4 * (s : ℤ) + 35 : ℤ) : ℚ) / ((10 : ℕ) : ℚ) := by
    push_cast
    ring
  rw [h, Rat.floor_intCast_div_natCast]
  norm_num

/-- C9 (amended): for every raw record whose size has no exact match in the
lookup table (sizes 4, 6, 8, 10, 12), the synthesized default metadata
follows deterministic formulas on the size: the gradient by the bands
40/20/16/14/12/else, the prose by the bands 20/16/12/else (the bottom
template mentioning the size itself), the capacity string as
`round(size*10)`–`round(size*12)` bin bags, the dimension and weight strings
by the linear rounded formulas, the best-for labels and use-case pairs by
the bands 20/16/12/else — while the icon is selected by the thresholds 16
and 10, not by the claimed bands. -/
theorem default_metadata_formulas (a : SkipApiData)
    (h : a.size ≠ 4 ∧ a.size ≠ 6 ∧ a.size ≠ 8 ∧ a.size ≠ 10 ∧ a.size ≠ 12) :
    (getDisplayProperties a).icon
        = (if a.size ≥ 16 then IconT.Factory
           else if a.size ≥ 10 then IconT.Building else IconT.Home)
    ∧ (getDisplayProperties a).gradient
        = (if a.size ≥ 40 then "from-slate-600 via-gray-700 to-zinc-800"
           else if a.size ≥ 20 then "from-red-500 via-red-700 to-red-900"
           else if a.size ≥ 16 then "from-cyan-400 via-teal-500 to-emerald-600"
           else if a.size ≥ 14 then "from-indigo-400 via-blue-600 to-blue-900"
           else if a.size ≥ 12 then "from-yellow-400 via-amber-500 to-orange-600"
           else "from-slate-400 via-gray-500 to-zinc-600")
    ∧ (getDisplayProperties a).description
        = (if a.size ≥ 20 then "Industrial-grade solution for major projects"
           else if a.size ≥ 16 then "Large commercial and construction projects"
           else if a.size ≥ 12 then "Heavy-duty commercial applications"
           else toString a.size ++ " yard skip for medium to large projects")
    ∧ (getDisplayProperties a).capacity
        = toString (10 * (a.size : ℤ)) ++ "-" ++ toString (12 * (a.size : ℤ)) ++ " bin bags"
    ∧ (getDisplayProperties a).dimensions
        = toString ((12 * (a.size : ℤ) + 5) / 10) ++ "ft × "
          ++ toString ((15 * (a.size : ℤ) + 5) / 10) ++ "ft × "
          ++ toString ((4 * (a.size : ℤ) + 35) / 10) ++ "ft"
    ∧ (getDisplayProperties a).weight
        = toString ((6 * (a.size : ℤ) + 5) / 10) ++ "-"
          ++ toString ((8 * (a.size : ℤ) + 5) / 10) ++ " tonnes"
    ∧ (getDisplayProperties a).bestFor
        = (if a.size ≥ 20 then
             ["Industrial projects", "Major construction", "Large demolitions",
              "Commercial builds"]
           else if a.size ≥ 16 then
             ["Large construction", "Commercial projects", "Major demolitions",
              "Industrial work"]
           else if a.size ≥ 12 then
             ["Construction projects", "Commercial renovation", "Large clearouts",
              "Industrial use"]
           else
             ["Medium construction", "Large renovation", "Commercial projects", "Bulk waste"])
    ∧ (getDisplayProperties a).useCases
        = [⟨if a.size ≥ 20 then "Industrial"
            else if a.size ≥ 16 then "Large construction"
            else if a.size ≥ 12 then "Construction"
            else "Large project", 90⟩,
           ⟨if a.size ≥ 20 then "Major construction"
            else if a.size ≥ 16 then "Commercial"
            else if a.size ≥ 12 then "Commercial renovation"
            else "Commercial", 80⟩,
           ⟨"Bulk clearance", 70⟩] := by
  have hd : getDisplayProperties a = defaultConfig a.size := by
    rw [getDisplayProperties]
    rw [if_neg h.1, if_neg h.2.1, if_neg h.2.2.1, if_neg h.2.2.2.1, if_neg h.2.2.2.2]
  rw [hd]
  refine ⟨rfl, rfl, rfl, ?_, ?_, ?_, rfl, rfl⟩
  · show toString (jsRound ((a.size : ℚ) * 10)) ++ "-" ++ toString (jsRound ((a.size : ℚ) * 12))
        ++ " bin bags" = _
    rw [jsRound_bags_lo a.size, jsRound_bags_hi a.size]
  · show toString (jsRound ((a.size : ℚ) * 12 / 10)) ++ "ft × "
        ++ toString (jsRound ((a.size : ℚ) * 15 / 10)) ++ "ft × "
        ++ toString (jsRound ((a.size : ℚ) * 4 / 10 + 3)) ++ "ft" = _
    rw [jsRound_dim_len a.size, jsRound_dim_wid a.size, jsRound_dim_height a.size]
  · show toString (jsRound ((a.size : ℚ) * 6 / 10)) ++ "-"
        ++ toString (jsRound ((a.size : ℚ) * 8 / 10)) ++ " tonnes" = _
    rw [jsRound_weight_lo a.size, jsRound_weight_hi a.size]

/-- Witness for C9 (amended) at an untabulated size 14: the icon follows the
16/10 thresholds and the capacity string follows the rounded formula. -/
theorem default_metadata_formulas_witness :
    (getDisplayProperties (sampleRecordOfSize 14)).icon
        = (if (sampleRecordOfSize 14).size ≥ 16 then IconT.Factory
           else if (sampleRecordOfSize 14).size ≥ 10 then IconT.Building else IconT.Home)
    ∧ (getDisplayProperties (sampleRecordOfSize 14)).capacity
        = toString (10 * ((sampleRecordOfSize 14).size : ℤ)) ++ "-"
          ++ toString (12 * ((sampleRecordOfSize 14).size : ℤ)) ++ " bin bags" :=
  ⟨(default_metadata_formulas (sampleRecordOfSize 14) (by decide)).1,
   (default_metadata_formulas (sampleRecordOfSize 14) (by decide)).2.2.2.1⟩
